import Mathlib

/-!
Shallow embedding of `src/bot.py` (a Telegram video-delivery bot) and proofs
of the specified properties.

Modelling conventions:
- Module-level configuration globals (`MANDATORY_CHANNELS`, `ADMIN_IDS`) are
  passed to the embedded functions as explicit parameters; the concrete values
  from the source are also provided as constants.
- The platform call `context.bot.get_chat_member(channel_id, user_id)` is
  modelled as a function `Int → Int → ChatMemberResult`, where `badRequest`
  models the `BadRequest` exception caught in `check_membership`.
- The sqlite table `videos (code TEXT PRIMARY KEY, title TEXT, file_id TEXT)`
  is modelled as a list of rows `(code, title, file_id)`; `REPLACE INTO`
  removes any row with the same key and prepends the new row.
- Python string `.upper()` is modelled by `upper`, mapping `Char.toUpper`
  over the characters (the bot codes are ASCII).
- Handlers return the updated per-user session data (`context.user_data`),
  the updated table where they write it, and the list of outbound messages
  they send; `handle_code` additionally returns the number of registry reads
  it performed. Exceptions escaping a handler are modelled with `Except`.
- Line 135 of the source reads
  `InlineKeyboardButton(..., url=f"https://t.me/c/\x7bKINOSPEEDS\x7d")` inside
  a loop over `MANDATORY_CHANNELS`, but the name `KINOSPEEDS` is defined
  nowhere in the module, so evaluating the list comprehension raises
  `NameError`; `KINOSPEEDS` below models that unresolved name lookup.
-/

namespace Bot

/-- Membership statuses from `telegram.constants.ChatMemberStatus`. -/
inductive ChatMemberStatus where
  | member
  | creator
  | administrator
  | restricted
  | left
  | kicked
  deriving DecidableEq, BEq, Repr

/-- Outcome of `context.bot.get_chat_member`: a status, or the `BadRequest`
exception (e.g. the bot cannot see the channel). -/
inductive ChatMemberResult where
  | ok (s : ChatMemberStatus)
  | badRequest
  deriving DecidableEq, BEq, Repr

/-- The passing-status test from `check_membership`
(`member.status not in (MEMBER, CREATOR, ADMINISTRATOR)` negated). -/
def status_ok (s : ChatMemberStatus) : Bool :=
  s == ChatMemberStatus.member || s == ChatMemberStatus.creator ||
    s == ChatMemberStatus.administrator

/-- `MANDATORY_CHANNELS` from the configuration section of the source. -/
def MANDATORY_CHANNELS : List Int := [-1001234567890]

/-- `ADMIN_IDS` from the configuration section of the source. -/
def ADMIN_IDS : List Int := [1350513135]

/-- `is_admin` from the source, with the global `ADMIN_IDS` passed explicitly. -/
def is_admin (admin_ids : List Int) (user_id : Int) : Bool :=
  admin_ids.contains user_id

/-- `check_membership` from the source: loop over the mandatory channels; a
status outside the passing set returns `False`, a `BadRequest` from the
platform query returns `False`, and the loop falling through returns `True`.
The platform query is the parameter `g` (channel id, then user id). -/
def check_membership (g : Int → Int → ChatMemberResult) (channels : List Int)
    (user_id : Int) : Bool :=
  match channels with
  | [] => true
  | c :: rest =>
    match g c user_id with
    | ChatMemberResult.ok s =>
      if status_ok s then check_membership g rest user_id else false
    | ChatMemberResult.badRequest => false

/-- Instrumentation of `check_membership`: the list of channel ids for which
the body of the loop actually issues a `get_chat_member` query, in order. -/
def check_membership_queried (g : Int → Int → ChatMemberResult)
    (channels : List Int) (user_id : Int) : List Int :=
  match channels with
  | [] => []
  | c :: rest =>
    match g c user_id with
    | ChatMemberResult.ok s =>
      if status_ok s then c :: check_membership_queried g rest user_id else [c]
    | ChatMemberResult.badRequest => [c]

/-- Model of Python string `.upper()` (ASCII codes): uppercase every character. -/
def upper (s : String) : String :=
  String.mk (s.data.map Char.toUpper)

/-- One row of the `videos` table: `(code, title, file_id)`. -/
abbrev VideosTable := List (String × String × String)

/-- `add_video` from the source:
`REPLACE INTO videos (code, title, file_id) VALUES (code.upper(), title, file_id)`.
`REPLACE` on the primary key `code` deletes any existing row with that key and
inserts the new one. -/
def add_video (db : VideosTable) (code : String) (title : String)
    (file_id : String) : VideosTable :=
  (upper code, title, file_id) :: db.filter (fun r => !(r.1 == upper code))

/-- `delete_video` from the source:
`DELETE FROM videos WHERE code = code.upper()`, returning the updated table and
`cur.rowcount > 0` (whether some row was removed). -/
def delete_video (db : VideosTable) (code : String) : VideosTable × Bool :=
  (db.filter (fun r => !(r.1 == upper code)),
   db.any (fun r => r.1 == upper code))

/-- `fetch_video` from the source:
`SELECT file_id, title FROM videos WHERE code = code.upper()`; returns
`(file_id, title)` or nothing. -/
def fetch_video (db : VideosTable) (code : String) : Option (String × String) :=
  (db.find? (fun r => r.1 == upper code)).map (fun r => (r.2.2, r.2.1))

/-- Per-user session data (`context.user_data`); the only key ever used is
`"verified"`, absent meaning falsy. -/
structure UserData where
  verified : Bool
  deriving DecidableEq, Repr

/-- An outbound message: a text reply with inline-keyboard buttons given as
`(label, url)` pairs, or a video reply with a caption. -/
inductive OutMsg where
  | text (body : String) (buttons : List (String × String))
  | video (file_id : String) (caption : String)
  deriving DecidableEq, Repr

/-- Line 135 of the source references the name `KINOSPEEDS`, which is defined
nowhere in the module; evaluating it raises `NameError`. -/
def KINOSPEEDS : Except String String :=
  Except.error "NameError: name \x27KINOSPEEDS\x27 is not defined"

/-- The `buttons` list comprehension in `start` (source lines 134-137): one
button per mandatory channel, whose url interpolates `KINOSPEEDS` — not the
loop variable `channel`, which is unused in the body. -/
def start_buttons (channels : List Int) :
    Except String (List (String × String)) :=
  channels.mapM (fun _channel =>
    KINOSPEEDS.map (fun k => ("➕ Kanalga qo\x27shiling", "https://t.me/c/" ++ k)))

/-- `start` handler from the source. On a passing membership check it replies
with a confirmation and sets `user_data["verified"] = True`; otherwise it
builds the join-button list (which evaluates `KINOSPEEDS`) and replies with an
instruction, leaving the session data unchanged. The result is the session
data after the handler, paired with the messages sent (or the exception that
escaped). -/
def start (g : Int → Int → ChatMemberResult) (channels : List Int)
    (user_id : Int) (ud : UserData) : UserData × Except String (List OutMsg) :=
  if check_membership g channels user_id then
    ({ ud with verified := true },
     Except.ok [OutMsg.text
       "✅ Kanal(a)larga a\x27zolik tasdiqlandi!\nIltimos, videoni olish uchun kodni kiriting:"
       []])
  else
    match start_buttons channels with
    | Except.error e => (ud, Except.error e)
    | Except.ok btns =>
      (ud, Except.ok [OutMsg.text
        "Salom! Videoni olishdan oldin quyidagi kanal(lar)ga a\x27zo bo\x27ling:"
        btns])

/-- `handle_code` handler from the source: unverified users are ignored
(`if not context.user_data.get("verified"): return`); otherwise the stripped
text is looked up in the registry and either the video or a not-found message
is sent. Returns the session data after the handler, the messages sent, and
the number of registry reads performed. -/
def handle_code (db : VideosTable) (ud : UserData) (text : String) :
    UserData × List OutMsg × Nat :=
  if !ud.verified then (ud, [], 0)
  else
    let code := text.trim
    match fetch_video db code with
    | some (file_id, title) =>
      (ud, [OutMsg.video file_id
        ("📹 <b>" ++ title ++ "</b>\nKod: <code>" ++ upper code ++ "</code>")], 1)
    | none =>
      (ud, [OutMsg.text
        "🚫 Bunday kod topilmadi. To\x27g\x27ri kiriting yoki /start buyrug\x27ini qayta bajaring."
        []], 1)

/-- `upload` handler from the source: a non-admin caller gets no reply and no
table change; then a missing reply-to-video yields a usage hint; then fewer
than two arguments yields a usage hint; otherwise the entry is stored and
confirmed. `reply_to_video` is the `file_id` of the video in the replied-to
message, when there is one. Returns session data, table, and messages sent. -/
def upload (admin_ids : List Int) (user_id : Int)
    (reply_to_video : Option String) (args : List String) (ud : UserData)
    (db : VideosTable) : UserData × VideosTable × List OutMsg :=
  if !(is_admin admin_ids user_id) then (ud, db, [])
  else
    match reply_to_video with
    | none =>
      (ud, db, [OutMsg.text
        "⬆️ Videoni yuklash uchun avval videoga javob sifatida /upload <code> <nom> deb yozing."
        []])
    | some file_id =>
      match args with
      | code :: w :: ws =>
        let title := String.intercalate " " (w :: ws)
        (ud, add_video db code title file_id,
         [OutMsg.text ("✅ Video saqlandi! Kod: " ++ upper code ++ " -> " ++ title)
           []])
      | _ => (ud, db, [OutMsg.text "Foydalanish: /upload <kod> <nom>" []])

/-- `delete` handler from the source: a non-admin caller gets no reply and no
table change; a wrong argument count yields a usage hint; otherwise
`delete_video` runs and its boolean picks the success or not-found reply.
Returns session data, table, and messages sent. -/
def delete (admin_ids : List Int) (user_id : Int) (args : List String)
    (ud : UserData) (db : VideosTable) :
    UserData × VideosTable × List OutMsg :=
  if !(is_admin admin_ids user_id) then (ud, db, [])
  else
    match args with
    | [code] =>
      match delete_video db code with
      | (db2, true) =>
        (ud, db2, [OutMsg.text ("🗑️ " ++ upper code ++ " kodi bilan video o\x27chirildi.")
          []])
      | (db2, false) => (ud, db2, [OutMsg.text "🚫 Bunday kod topilmadi." []])
    | _ => (ud, db, [OutMsg.text "Foydalanish: /delete <kod>" []])

/-- C10: when the configured list of mandatory channels is empty,
`check_membership` returns `true` for every user and platform query function,
and issues no platform query at all. -/
theorem check_membership_empty_channels (g : Int → Int → ChatMemberResult)
    (u : Int) :
    check_membership g [] u = true ∧ check_membership_queried g [] u = [] :=
  ⟨rfl, rfl⟩

/-- C3: if the platform membership-status query fails (`BadRequest`) for some
configured channel, `check_membership` returns `false` — the check fails
closed. -/
theorem check_membership_fails_closed (g : Int → Int → ChatMemberResult)
    (cs : List Int) (u : Int) (c : Int) (hmem : c ∈ cs)
    (hbad : g c u = ChatMemberResult.badRequest) :
    check_membership g cs u = false := by
  induction cs with
  | nil => cases hmem
  | cons a rest ih =>
    rcases List.mem_cons.mp hmem with h | hr
    · subst h
      simp [check_membership, hbad]
    · unfold check_membership
      cases hga : g a u with
      | badRequest => rfl
      | ok s =>
        by_cases hs : status_ok s
        · simp [hs, ih hr]
        · simp [hs]

/-- Witness for C3: a query function that raises `BadRequest` on the single
configured channel makes the membership check return `false`. -/
theorem check_membership_fails_closed_witness :
    check_membership (fun _ _ => ChatMemberResult.badRequest) [5] 0 = false :=
  check_membership_fails_closed (fun _ _ => ChatMemberResult.badRequest)
    [5] 0 5 (by decide) rfl

/-- C4: `Put` then `Get` round-trips case-insensitively: `add_video` under
code `c` followed by `fetch_video` under any case variant `c2` of `c`
(same uppercase normalization) returns `(file_id, title)`. -/
theorem put_get_case_insensitive_roundtrip (db : VideosTable)
    (c c2 t m : String) (h : upper c = upper c2) :
    fetch_video (add_video db c t m) c2 = some (m, t) := by
  unfold fetch_video add_video
  rw [h]
  rw [List.find?_cons_of_pos _ (by simp)]
  rfl

/-- Witness for C4: storing under lowercase `x42` and fetching under uppercase
`X42` returns the stored media reference and title. -/
theorem put_get_roundtrip_witness :
    fetch_video (add_video [] "x42" "Demo" "F1") "X42" = some ("F1", "Demo") :=
  put_get_case_insensitive_roundtrip [] "x42" "X42" "Demo" "F1" (by decide)

/-- C5: last write wins, no duplicates: two `add_video` writes under the same
code followed by `fetch_video` return the second `(file_id, title)`, and the
resulting table holds exactly one row under the normalized code. -/
theorem put_put_get_last_write_wins (db : VideosTable)
    (c t1 m1 t2 m2 : String) :
    fetch_video (add_video (add_video db c t1 m1) c t2 m2) c = some (m2, t2) ∧
    ((add_video (add_video db c t1 m1) c t2 m2).countP
      (fun r => r.1 == upper c)) = 1 := by
  constructor
  · unfold fetch_video add_video
    rw [List.find?_cons_of_pos _ (by simp)]
    rfl
  · unfold add_video
    rw [List.countP_cons_of_pos _ _ (by simp)]
    have h0 : (List.countP (fun r => r.1 == upper c)
        (List.filter (fun r => !(r.1 == upper c))
          ((upper c, t1, m1) :: List.filter (fun r => !(r.1 == upper c)) db))) = 0 := by
      rw [List.countP_eq_zero]
      intro a ha
      have hq := List.of_mem_filter ha
      simpa using hq
    rw [h0]

/-- C6: deleting a code whose normalized form is not in the table returns
"not removed" (`false`) and leaves the table unchanged. -/
theorem delete_absent_code_noop (db : VideosTable) (c : String)
    (h : ∀ r ∈ db, r.1 ≠ upper c) :
    delete_video db c = (db, false) := by
  unfold delete_video
  have h1 : db.filter (fun r => !(r.1 == upper c)) = db := by
    rw [List.filter_eq_self]
    intro a ha
    simpa using h a ha
  have h2 : db.any (fun r => r.1 == upper c) = false := by
    rw [Bool.eq_false_iff]
    intro hany
    obtain ⟨a, ha, hpa⟩ := List.any_eq_true.mp hany
    exact h a ha (by simpa using hpa)
  rw [h1, h2]

/-- Witness for C6: deleting the absent code `b7` from a table holding only
`X42` returns the table unchanged and `false`. -/
theorem delete_absent_code_witness :
    delete_video [("X42", "Demo", "F1")] "b7" = ([("X42", "Demo", "F1")], false) :=
  delete_absent_code_noop [("X42", "Demo", "F1")] "b7" (by decide)

/-- C2: `check_membership` returns `true` iff the platform query for every
configured channel yields a passing status (member, creator/owner, or
administrator); in particular, with channels `[A, B]`, passing in `A` but
failing in `B` gives `false`, and passing in both gives `true` (shown on
concrete query functions). -/
theorem check_membership_iff_all_pass :
    (∀ (g : Int → Int → ChatMemberResult) (cs : List Int) (u : Int),
      check_membership g cs u = true ↔
        ∀ c ∈ cs, ∃ s, g c u = ChatMemberResult.ok s ∧ status_ok s = true) ∧
    check_membership
      (fun c _ => if c = 1 then ChatMemberResult.ok ChatMemberStatus.member
                  else ChatMemberResult.ok ChatMemberStatus.left) [1, 2] 9 = false ∧
    check_membership
      (fun _ _ => ChatMemberResult.ok ChatMemberStatus.member) [1, 2] 9 = true := by
  refine ⟨?_, by decide, by decide⟩
  intro g cs u
  induction cs with
  | nil => simp [check_membership]
  | cons a rest ih =>
    unfold check_membership
    cases hga : g a u with
    | badRequest =>
      simp only [Bool.false_eq_true, false_iff]
      intro hall
      obtain ⟨s, hs, _⟩ := hall a (List.mem_cons_self a rest)
      rw [hga] at hs
      cases hs
    | ok s =>
      by_cases hs : status_ok s = true
      · simp only [hs, if_true]
        constructor
        · intro hrec c hc
          rcases List.mem_cons.mp hc with h | hc2
          · subst h
            exact ⟨s, hga, hs⟩
          · exact (ih.mp hrec) c hc2
        · intro hall
          exact ih.mpr (fun c hc => hall c (List.mem_cons_of_mem a hc))
      · simp only [hs, if_false, Bool.false_eq_true, false_iff]
        intro hall
        obtain ⟨s2, hs2, hok2⟩ := hall a (List.mem_cons_self a rest)
        rw [hga] at hs2
        cases hs2
        exact hs hok2

/-- Witness for C2: the characterization applied at a singleton channel list
whose query returns a passing status. -/
theorem check_membership_iff_witness :
    check_membership (fun _ _ => ChatMemberResult.ok ChatMemberStatus.member)
      [1] 0 = true :=
  (check_membership_iff_all_pass.1
    (fun _ _ => ChatMemberResult.ok ChatMemberStatus.member) [1] 0).mpr
    (fun _ _ => ⟨ChatMemberStatus.member, rfl, rfl⟩)

/-- C1 (code bug evidence): with the configured channel list and a user whose
membership check fails, the `start` handler raises
`NameError: name KINOSPEEDS is not defined` while building the join buttons
(the url references the undefined `KINOSPEEDS` instead of the loop variable
`channel`), so no reply carrying per-channel join buttons is ever sent. -/
theorem start_failure_raises_name_error :
    check_membership (fun _ _ => ChatMemberResult.ok ChatMemberStatus.left)
      MANDATORY_CHANNELS 7 = false ∧
    start (fun _ _ => ChatMemberResult.ok ChatMemberStatus.left)
      MANDATORY_CHANNELS 7 ⟨false⟩ =
      (⟨false⟩, Except.error "NameError: name \x27KINOSPEEDS\x27 is not defined") :=
  ⟨rfl, rfl⟩

/-- C7: a plain-text message from an unverified session produces no outbound
message, no registry read, and no session-state change. -/
theorem handle_code_unverified_silent (db : VideosTable) (ud : UserData)
    (text : String) (h : ud.verified = false) :
    handle_code db ud text = (ud, [], 0) := by
  unfold handle_code
  rw [h]
  rfl

/-- Witness for C7: an unverified session sending `x42` over an empty table. -/
theorem handle_code_unverified_witness :
    handle_code [] ⟨false⟩ "x42" = (⟨false⟩, [], 0) :=
  handle_code_unverified_silent [] ⟨false⟩ "x42" rfl

/-- C8: both admin handlers invoked by a user outside the configured admin
list produce zero outbound messages and zero table mutations, for any
arguments and any reply-to context. -/
theorem admin_commands_silent_for_non_admin (admin_ids : List Int) (uid : Int)
    (rtv : Option String) (args dargs : List String) (ud : UserData)
    (db : VideosTable) (h : is_admin admin_ids uid = false) :
    upload admin_ids uid rtv args ud db = (ud, db, []) ∧
    delete admin_ids uid dargs ud db = (ud, db, []) := by
  unfold upload delete
  rw [h]
  exact ⟨rfl, rfl⟩

/-- Witness for C8: user 7 is not in the configured admin list; both handlers
are silent no-ops. -/
theorem admin_commands_silent_witness :
    upload [1350513135] 7 none ["X42", "My", "Title"] ⟨true⟩ [] =
      (⟨true⟩, [], []) ∧
    delete [1350513135] 7 ["X42"] ⟨true⟩ [] = (⟨true⟩, [], []) :=
  admin_commands_silent_for_non_admin [1350513135] 7 none
    ["X42", "My", "Title"] ["X42"] ⟨true⟩ [] (by decide)

/-- C9: the `verified` flag is monotone across every handler: once it is
`true`, `start` leaves it `true` in both branches (including a failing
membership re-check), and `handle_code`, `upload` and `delete` never write
the session data at all. -/
theorem verified_flag_monotone (g : Int → Int → ChatMemberResult)
    (cs : List Int) (u : Int) (ud : UserData) (db : VideosTable)
    (text : String) (rtv : Option String) (args dargs : List String)
    (admin_ids : List Int) (uid : Int) (h : ud.verified = true) :
    (start g cs u ud).1.verified = true ∧
    (handle_code db ud text).1 = ud ∧
    (upload admin_ids uid rtv args ud db).1 = ud ∧
    (delete admin_ids uid dargs ud db).1 = ud := by
  refine ⟨?_, ?_, ?_, ?_⟩
  · unfold start
    by_cases hm : check_membership g cs u = true
    · rw [if_pos hm]
    · rw [if_neg hm]
      cases start_buttons cs with
      | error e => exact h
      | ok btns => exact h
  · unfold handle_code
    rw [h]
    simp only [Bool.not_true, Bool.false_eq_true, if_false]
    split <;> rfl
  · unfold upload
    by_cases ha : is_admin admin_ids uid = true
    · rw [ha]
      cases rtv with
      | none => rfl
      | some fid =>
        cases args with
        | nil => rfl
        | cons a as => cases as with
          | nil => rfl
          | cons b bs => rfl
    · rw [Bool.eq_false_iff.mpr (fun hc => ha hc)]
      rfl
  · unfold delete
    by_cases ha : is_admin admin_ids uid = true
    · rw [ha]
      cases dargs with
      | nil => rfl
      | cons a as => cases as with
        | nil =>
          cases hdv : delete_video db a with
          | mk db2 b => cases b <;> simp [hdv]
        | cons b bs => rfl
    · rw [Bool.eq_false_iff.mpr (fun hc => ha hc)]
      rfl

/-- Witness for C9: a verified session stays verified through a failing
`start` re-check (channel query returns `left`) and through each of the other
handlers. -/
theorem verified_flag_monotone_witness :
    (start (fun _ _ => ChatMemberResult.ok ChatMemberStatus.left) [] 0
      ⟨true⟩).1.verified = true ∧
    (handle_code [] ⟨true⟩ "x42").1 = (⟨true⟩ : UserData) ∧
    (upload [1350513135] 0 none [] ⟨true⟩ []).1 = (⟨true⟩ : UserData) ∧
    (delete [1350513135] 0 [] ⟨true⟩ []).1 = (⟨true⟩ : UserData) :=
  verified_flag_monotone (fun _ _ => ChatMemberResult.ok ChatMemberStatus.left)
    [] 0 ⟨true⟩ [] "x42" none [] [] [1350513135] 0 rfl

end Bot
